import Mathlib

/-!
Verification of the B-factor analysis engine in `bdb/check_beq.py`.

Shallow embedding conventions:

* Python floats are modeled as exact rationals (`ℚ`); every IEEE-754 double
  is a rational, and none of the properties below depend on rounding.
  Float literals such as `0.015` are read as the rationals they denote.
* The float constant `8 * np.pi ** 2` is kept abstract as a parameter
  `pipi : ℚ` of the definitions that use it; theorems quantify over it,
  and concrete evaluations instantiate it with a sample rational.
* `np.isclose(a, b, atol=t)` keeps numpy's default relative tolerance
  `rtol = 1e-05`; its definition is `|a - b| <= atol + rtol * |b|`.
* Fallible code is modeled with `Option` (an uncaught `AssertionError` or
  `StopIteration` or `ZeroDivisionError` is `none`) or `Except String`
  (a raised `ValueError` carries its message).
* `if not structure:` in Python is true both for `None` and for a
  `Bio.PDB` structure with an empty child list (entities define `__len__`
  and no `__bool__`), so the model tests emptiness of the model list too.
-/

/-- numpy.isclose with the library default `rtol = 1e-05`:
`absolute(a - b) <= (atol + rtol * absolute(b))`.  The source always passes
`atol` explicitly and leaves `rtol` at its default. -/
def npIsClose (a b atol : ℚ) (rtol : ℚ := 1/100000) : Bool :=
  decide (|a - b| ≤ atol + rtol * |b|)

/-- numpy.allclose on two equal-length 1-d arrays: elementwise `npIsClose`,
conjoined. -/
def npAllClose (xs ys : List ℚ) (atol : ℚ) : Bool :=
  (xs.zip ys).all fun p => npIsClose p.1 p.2 atol

/-- An ATOM record as consumed by the engine: `get_name()`, `get_occupancy()`,
`get_bfactor()`, and `get_anisou()`, the latter being the six ANISOU values
(U11, U22, U33, U12, U13, U23) or `None`.  Biopython always stores six values
when an ANISOU record is present. -/
structure Atom where
  name : String
  occupancy : ℚ
  bfactor : ℚ
  anisou : Option (ℚ × ℚ × ℚ × ℚ × ℚ × ℚ)
deriving DecidableEq, Repr

/-- A residue: `get_id()[0]` (the hetero flag, `" "` for standard residues)
and its atoms in file order. -/
structure Residue where
  het : String
  atoms : List Atom
deriving DecidableEq, Repr

/-- A chain: its id and residues in file order. -/
structure Chain where
  id : String
  residues : List Residue
deriving DecidableEq, Repr

/-- A structure: a list of models, each a list of chains (Bio.PDB hierarchy).
The Python truthiness of a structure is determined by its direct children,
the models. -/
structure Structure where
  models : List (List Chain)
deriving DecidableEq, Repr

/-- chain.get_atoms(): atoms of the residues, in order. -/
def Chain.atoms (c : Chain) : List Atom :=
  (c.residues.map Residue.atoms).flatten

/-- structure.get_chains(): chains of all models, in order. -/
def Structure.chains (s : Structure) : List Chain :=
  s.models.flatten

/-- structure.get_atoms(): atoms of all chains, in order. -/
def Structure.atoms (s : Structure) : List Atom :=
  (s.chains.map Chain.atoms).flatten

/-- The six ANISOU values as the list Biopython's `get_anisou()` returns. -/
def anisouList (u : ℚ × ℚ × ℚ × ℚ × ℚ × ℚ) : List ℚ :=
  [u.1, u.2.1, u.2.2.1, u.2.2.2.1, u.2.2.2.2.1, u.2.2.2.2.2]

/-- Line 52: `beq = 8*np.pi**2 * sum(anisou[0:3]) / 3`. -/
def beqStandard (pipi : ℚ) (anisou : List ℚ) : ℚ :=
  pipi * (anisou.take 3).sum / 3

/-- `itertools.combinations(xrange(0, 6), 3)` in its enumeration order,
which is lexicographic over the index triples. -/
def combinations_3_of_6 : List (ℕ × ℕ × ℕ) :=
  [(0, 1, 2), (0, 1, 3), (0, 1, 4), (0, 1, 5), (0, 2, 3), (0, 2, 4), (0, 2, 5),
   (0, 3, 4), (0, 3, 5), (0, 4, 5), (1, 2, 3), (1, 2, 4), (1, 2, 5), (1, 3, 4),
   (1, 3, 5), (1, 4, 5), (2, 3, 4), (2, 3, 5), (2, 4, 5), (3, 4, 5)]

/-- Line 93: `beq = 8*np.pi**2 * (anisou[c[0]] + anisou[c[1]] + anisou[c[2]])/3`. -/
def comboBeq (pipi : ℚ) (anisou : List ℚ) (c : ℕ × ℕ × ℕ) : ℚ :=
  pipi * (anisou.getD c.1 0 + anisou.getD c.2.1 0 + anisou.getD c.2.2 0) / 3

/-- Lines 89-99 of the source: the loop over the twenty combinations, breaking
at the first one whose Beq is within tolerance of `b`.  Breaking at the first
match and returning the `reproduced` flag is equivalent to this disjunction
over the list. -/
def anyComboClose (pipi : ℚ) (anisou : List ℚ) (b margin : ℚ) : Bool :=
  combinations_3_of_6.any fun c => npIsClose b (comboBeq pipi anisou c) margin

/-- `check_combinations` (lines 82-100).  `none` models the `AssertionError`
raised by `assert(len(anisou) == 6)` for tuples of any other length.

Note the guard in the source, `if c == (0, 1, 2) and not check_first: pass`,
is a no-op: `pass` does not skip the loop iteration (that would be
`continue`), so every combination - the standard `(0, 1, 2)` included - is
tested regardless of `check_first`.  The parameter therefore has no effect
on the result and is unused below. -/
def check_combinations (pipi : ℚ) (anisou : List ℚ) (b margin : ℚ)
    (check_first : Bool := false) : Option Bool :=
  if anisou.length = 6 then some (anyComboClose pipi anisou b margin) else none

/-- Mutable state of the `check_beq` loop (lines 38-42). -/
structure BeqState where
  has_anisou : Bool
  eq : ℕ
  ne : ℕ
  correct_uij : Bool
deriving DecidableEq, Repr

/-- Result record of `check_beq` (line 79). -/
structure BeqResult where
  beq_identical : Option ℚ
  correct_uij : Option Bool
deriving DecidableEq, Repr

/-- Body of the `check_beq` loop for one atom (lines 43-75), with
`margin = 0.015`.  The atom's accessors are all reads; `none` propagates an
`AssertionError` out of `check_combinations` (unreachable here, since
`get_anisou()` always yields six values). -/
def check_beq_atom (pipi : ℚ) (st : BeqState) (a : Atom) : Option BeqState :=
  match a.anisou with
  | none => some st
  | some u =>
    let l := anisouList u
    if npIsClose a.bfactor (beqStandard pipi l) (15/1000) then
      some { st with has_anisou := true, eq := st.eq + 1 }
    else
      match check_combinations pipi l a.bfactor (15/1000) with
      | none => none
      | some true => some { st with has_anisou := true, eq := st.eq + 1, correct_uij := false }
      | some false => some { st with has_anisou := true, ne := st.ne + 1 }

/-- `check_beq` (lines 19-79).  `if not structure:` raises `ValueError` both
for `None` and for a structure whose model list is empty (Bio.PDB entities
define `__len__` and no `__bool__`, so an empty structure is falsy).
The defensive guard `if atom is None: break` of lines 44-46 targets a
Biopython parser artifact; in the structure model `get_atoms()` yields atom
records that always exist, so the guard never fires and has no counterpart
here. -/
def check_beq (pipi : ℚ) (s : Option Structure) : Except String BeqResult :=
  match s with
  | none => .error "Could check Beq values in ANISOU records. No structure."
  | some st =>
    if st.models.isEmpty then
      .error "Could check Beq values in ANISOU records. No structure."
    else
      match st.atoms.foldlM (check_beq_atom pipi) ⟨false, 0, 0, true⟩ with
      | none => .error "AssertionError"
      | some r =>
        .ok ⟨if r.has_anisou then some ((r.eq : ℚ) / ((r.eq : ℚ) + (r.ne : ℚ))) else none,
             if r.has_anisou then some r.correct_uij else none⟩

/-- Line 206: `re.match("H", atom.get_name())` - the regex is anchored at the
start of the string, so it matches exactly when the first character of the
name is `H`. -/
def matchH (n : String) : Bool :=
  match n.data with
  | [] => false
  | c :: _ => c == 'H'

/-- Body of the `determine_b_group_chain` while loop (lines 189-233):
consume residues until ten useful ones have been collected, tracking the
running `(b_res, group)` state.  `margin = 0.01`; hydrogens (names matching
`re.match("H", ...)`) and zero-occupancy atoms are excluded; `b_atom = sorted(b_atom)` rebinds a new sorted list, so the entry
appended to `b_res` keeps file order. -/
def groupChainLoop (rs : List Residue) (i : ℕ) (b_res : List (List ℚ))
    (group : String) : List (List ℚ) × String :=
  if 10 ≤ i then (b_res, group) else
  match rs with
  | [] => (b_res, group)
  | res :: rest =>
      if res.het = " " then
        let b_atom := (res.atoms.filter fun a =>
          !matchH a.name && decide (0 < a.occupancy)).map Atom.bfactor
        let b_res2 := if b_atom.isEmpty then b_res else b_res ++ [b_atom]
        let i2 := if b_atom.isEmpty then i else i + 1
        let group2 :=
          if 1 < b_atom.length then
            let bs := b_atom.insertionSort (· ≤ ·)
            if npIsClose (bs.getLastD 0) (bs.headD 0) (1/100) then "residue_1ADP"
            else if decide (3 < bs.length) &&
                npAllClose [bs.getLastD 0, bs.getD 1 0]
                  [bs.getD (bs.length - 2) 0, bs.headD 0] (1/100) &&
                !npIsClose (bs.getD (bs.length - 2) 0) (bs.getD 1 0) (1/100) then
              "residue_2ADP"
            else "individual"
          else group
        groupChainLoop rest i2 b_res2 group2
      else groupChainLoop rest i b_res group

/-- The `b_res` lists gathered by the loop of `determine_b_group_chain` for a
chain: one list of B-factors per useful residue, at most ten. -/
def collected_b_res (c : Chain) : List (List ℚ) :=
  (groupChainLoop c.residues 0 [] "individual").1

/-- Final structure-level override of `determine_b_group_chain`
(lines 234-240): `len(b_res) > max_res - 1` with `max_res = 10`, the first
B-factor of the first and of the last collected residue compared with
`atol = 0.01`, and the zero test `np.isclose(b_res[-1][-1], 0)` with numpy's
default `atol = 1e-08` applied to the LAST B-factor of the last collected
residue. -/
def bGroupOverride (b_res : List (List ℚ)) (group : String) : String :=
  if decide (9 < b_res.length) &&
      npIsClose ((b_res.headD []).headD 0) ((b_res.getLastD []).headD 0) (1/100) then
    if npIsClose ((b_res.getLastD []).getLastD 0) 0 (1/100000000) then "no_b-factors"
    else "overall"
  else group

/-- `determine_b_group_chain` (lines 163-240), margin 0.01. -/
def determine_b_group_chain (c : Chain) : String :=
  let p := groupChainLoop c.residues 0 [] "individual"
  bGroupOverride p.1 p.2

/-- `has_amino_acid_backbone` (lines 255-260): residue contains atoms named
N, CA, C and O. -/
def residueHasAtomName (r : Residue) (n : String) : Bool :=
  r.atoms.any fun a => a.name == n

def has_amino_acid_backbone (r : Residue) : Bool :=
  ["N", "CA", "C", "O"].all (residueHasAtomName r)

/-- `has_sugar_phosphate_backbone` (lines 263-269). -/
def has_sugar_phosphate_backbone (r : Residue) : Bool :=
  ["P", "OP1", "OP2", "O5\x27", "C5\x27", "C4\x27",
   "O4\x27", "C3\x27", "O3\x27", "C2\x27", "C1\x27"].all (residueHasAtomName r)

/-- Scan of `is_protein_chain` (lines 339-354): walk every residue, but only
the first ten standard (non-HETATM) ones are actually tested; the first test
failure returns `False`, exhaustion returns `True`. -/
def proteinScanLoop : List Residue → ℕ → Bool
  | [], _ => true
  | r :: rest, checked =>
    if checked < 10 ∧ r.het = " " then
      if has_amino_acid_backbone r then proteinScanLoop rest (checked + 1)
      else false
    else proteinScanLoop rest checked

def is_protein_chain (c : Chain) : Bool :=
  proteinScanLoop c.residues 0

/-- Scan of `is_nucleic_chain` (lines 312-318), identical shape but testing
the nucleic backbone. -/
def nucleicScanLoop : List Residue → ℕ → Bool
  | [], _ => true
  | r :: rest, checked =>
    if checked < 10 ∧ r.het = " " then
      if has_sugar_phosphate_backbone r then nucleicScanLoop rest (checked + 1)
      else false
    else nucleicScanLoop rest checked

/-- `is_nucleic_chain` (lines 299-318): `residues.next()` is called
unconditionally before the scan, so a chain with no residues raises an
uncaught `StopIteration` (`none`); otherwise the scan starts at the second
residue. -/
def is_nucleic_chain (c : Chain) : Option Bool :=
  match c.residues with
  | [] => none
  | _ :: rest => some (nucleicScanLoop rest 0)

/-- `is_calpha_trace` (lines 280-296): fraction of atoms named CA is at least
0.75.  A chain with no atoms divides by zero (`none`). -/
def is_calpha_trace (c : Chain) : Option Bool :=
  if c.atoms.isEmpty then none
  else some (decide ((3 : ℚ)/4 ≤
    ((c.atoms.filter fun a => a.name == "CA").length : ℚ) / (c.atoms.length : ℚ)))

/-- `is_phos_trace` (lines 321-336): same with atoms named P. -/
def is_phos_trace (c : Chain) : Option Bool :=
  if c.atoms.isEmpty then none
  else some (decide ((3 : ℚ)/4 ≤
    ((c.atoms.filter fun a => a.name == "P").length : ℚ) / (c.atoms.length : ℚ)))

/-- Result record of `determine_b_group` (lines 124-129). -/
structure BGroup where
  protein_b : Option String
  nucleic_b : Option String
  calpha_only : Bool
  phos_only : Bool
deriving DecidableEq, Repr

/-- Chain loop of `determine_b_group` (lines 134-153): the four predicates
are tried in order, the first chain of each kind fixes the corresponding
field, later matching chains are ignored; `none` propagates an uncaught
exception from one of the predicates. -/
def classifyChains : List Chain → BGroup → Option BGroup
  | [], g => some g
  | c :: rest, g =>
    if is_protein_chain c then
      classifyChains rest
        (if g.protein_b.isNone then { g with protein_b := some (determine_b_group_chain c) } else g)
    else
      match is_nucleic_chain c with
      | none => none
      | some true =>
        classifyChains rest
          (if g.nucleic_b.isNone then { g with nucleic_b := some (determine_b_group_chain c) } else g)
      | some false =>
        match is_calpha_trace c with
        | none => none
        | some true =>
          classifyChains rest
            (if g.protein_b.isNone then
              { g with calpha_only := true, protein_b := some (determine_b_group_chain c) }
            else g)
        | some false =>
          match is_phos_trace c with
          | none => none
          | some true =>
            classifyChains rest
              (if g.nucleic_b.isNone then
                { g with phos_only := true, nucleic_b := some (determine_b_group_chain c) }
              else g)
          | some false => classifyChains rest g

/-- `determine_b_group` (lines 103-160): the default record is returned as is
when the structure is `None` (`if structure is not None:` - an identity test,
unlike the truthiness test in `check_beq`). -/
def determine_b_group (s : Option Structure) : Except String BGroup :=
  match s with
  | none => .ok ⟨none, none, false, false⟩
  | some st =>
    match classifyChains st.chains ⟨none, none, false, false⟩ with
    | none => .error "uncaught exception while classifying chains"
    | some g => .ok g

/-- Replace every atom of the structure by `f` of it, preserving the
model/chain/residue hierarchy. -/
def mapAtoms (f : Atom → Atom) (s : Structure) : Structure :=
  ⟨s.models.map fun m => m.map fun c =>
    ⟨c.id, c.residues.map fun r => ⟨r.het, r.atoms.map f⟩⟩⟩

/-- `multiply_bfactors_8pipi` (lines 357-361): every atom's B-factor is
overwritten with `8*np.pi**2` times its old value; nothing else changes. -/
def multiply_bfactors_8pipi (pipi : ℚ) (s : Structure) : Structure :=
  mapAtoms (fun a => { a with bfactor := pipi * a.bfactor }) s

/-- Post-state of the structure after `check_beq`: the loop body only calls
the read accessors `get_anisou`, `get_bfactor` and `get_full_id`, so every
visited atom is left as it was. -/
def check_beq_post (s : Structure) : Structure :=
  mapAtoms (fun a => a) s

/-- Post-state of the structure after `determine_b_group`: the classifier and
its predicates only call `get_id`, `get_name`, `get_occupancy` and
`get_bfactor`, all reads. -/
def determine_b_group_post (s : Structure) : Structure :=
  mapAtoms (fun a => a) s

/-! ### Derived per-atom predicates and characterization lemmas -/

lemma anisouList_length (u : ℚ × ℚ × ℚ × ℚ × ℚ × ℚ) : (anisouList u).length = 6 := rfl

/-- The atom carries an ANISOU record. -/
def atomHasAnisou (a : Atom) : Bool := a.anisou.isSome

/-- The standard-combination Beq of the atom is within 0.015 of its reported
B-factor (the comparison of line 54). -/
def atomStandardClose (pipi : ℚ) (a : Atom) : Bool :=
  match a.anisou with
  | none => false
  | some u => npIsClose a.bfactor (beqStandard pipi (anisouList u)) (15/1000)

/-- Some 3-of-6 combination of the atom's tensor components reproduces its
B-factor within 0.015. -/
def atomComboClose (pipi : ℚ) (a : Atom) : Bool :=
  match a.anisou with
  | none => false
  | some u => anyComboClose pipi (anisouList u) a.bfactor (15/1000)

/-- The atom is counted in `eq` by the `check_beq` loop. -/
def atomReproduced (pipi : ℚ) (a : Atom) : Bool :=
  atomStandardClose pipi a || atomComboClose pipi a

/-- The atom takes the fallback branch of line 56: the standard combination
misses but `check_combinations` succeeds, flipping `correct_uij`. -/
def atomFallback (pipi : ℚ) (a : Atom) : Bool :=
  !atomStandardClose pipi a && atomComboClose pipi a

lemma check_beq_atom_eq (pipi : ℚ) (st : BeqState) (a : Atom) :
    check_beq_atom pipi st a =
      some ⟨st.has_anisou || atomHasAnisou a,
            st.eq + (if atomReproduced pipi a then 1 else 0),
            st.ne + (if atomHasAnisou a && !atomReproduced pipi a then 1 else 0),
            st.correct_uij && !atomFallback pipi a⟩ := by
  cases h : a.anisou with
  | none =>
    simp [check_beq_atom, h, atomHasAnisou, atomReproduced, atomStandardClose,
      atomComboClose, atomFallback]
  | some u =>
    have h1 : atomStandardClose pipi a =
        npIsClose a.bfactor (beqStandard pipi (anisouList u)) (15/1000) := by
      simp [atomStandardClose, h]
    have h2 : check_combinations pipi (anisouList u) a.bfactor (15/1000) =
        some (atomComboClose pipi a) := by
      simp [check_combinations, anisouList_length, atomComboClose, h]
    simp only [check_beq_atom, h, h2, ← h1]
    cases hs : atomStandardClose pipi a <;>
      cases hc : atomComboClose pipi a <;>
      simp [atomHasAnisou, h, atomReproduced, atomFallback, hs, hc]

lemma check_beq_fold (pipi : ℚ) (l : List Atom) : ∀ st : BeqState,
    l.foldlM (check_beq_atom pipi) st =
      some ⟨st.has_anisou || l.any atomHasAnisou,
            st.eq + (l.filter (atomReproduced pipi)).length,
            st.ne + (l.filter fun a => atomHasAnisou a && !atomReproduced pipi a).length,
            st.correct_uij && !l.any (atomFallback pipi)⟩ := by
  induction l with
  | nil => intro st; simp
  | cons a t ih =>
    intro st
    rw [List.foldlM_cons, check_beq_atom_eq]
    show (t.foldlM (check_beq_atom pipi) _) = _
    rw [ih]
    by_cases h1 : atomReproduced pipi a = true <;>
      by_cases h2 : atomHasAnisou a = true <;>
      by_cases h3 : atomFallback pipi a = true <;>
      simp [h1, h2, h3, List.any_cons, List.filter_cons, Bool.or_assoc, Bool.and_assoc,
        Bool.not_or] <;>
      omega

lemma check_beq_eq_counts (pipi : ℚ) (s : Structure) (hm : ¬ s.models.isEmpty) :
    check_beq pipi (some s) =
      .ok ⟨if s.atoms.any atomHasAnisou then
              some (((s.atoms.filter (atomReproduced pipi)).length : ℚ) /
                (((s.atoms.filter (atomReproduced pipi)).length : ℚ) +
                 ((s.atoms.filter fun a => atomHasAnisou a && !atomReproduced pipi a).length : ℚ)))
            else none,
           if s.atoms.any atomHasAnisou then some (!s.atoms.any (atomFallback pipi))
           else none⟩ := by
  rw [check_beq]
  rw [if_neg hm]
  rw [check_beq_fold]
  simp only [Bool.false_or, Bool.true_and, Nat.zero_add]

lemma models_ne_of_mem_atoms {s : Structure} {a : Atom} (ha : a ∈ s.atoms) :
    ¬ s.models.isEmpty := by
  intro h
  rw [List.isEmpty_iff] at h
  simp [Structure.atoms, Structure.chains, h] at ha

lemma flatten_map_mapmap {α β : Type} (g : α → β) (L : List (List α)) :
    (L.map (List.map g)).flatten = L.flatten.map g := by
  induction L with
  | nil => rfl
  | cons m rest ih =>
    simp only [List.map_cons, List.flatten_cons, List.map_append, ih]

lemma mapAtoms_chains (f : Atom → Atom) (s : Structure) :
    (mapAtoms f s).chains = s.chains.map fun c =>
      Chain.mk c.id (c.residues.map fun r => Residue.mk r.het (r.atoms.map f)) := by
  cases s with
  | mk models =>
    simp only [mapAtoms, Structure.chains]
    exact flatten_map_mapmap _ models

lemma chain_atoms_map (f : Atom → Atom) (c : Chain) :
    Chain.atoms (Chain.mk c.id (c.residues.map fun r => Residue.mk r.het (r.atoms.map f)))
      = (Chain.atoms c).map f := by
  simp only [Chain.atoms, List.map_map]
  induction c.residues with
  | nil => rfl
  | cons r rs ih => simp [ih]

lemma mapAtoms_atoms (f : Atom → Atom) (s : Structure) :
    (mapAtoms f s).atoms = s.atoms.map f := by
  rw [Structure.atoms, mapAtoms_chains, Structure.atoms, List.map_map]
  induction s.chains with
  | nil => rfl
  | cons c t ih =>
    simp only [List.map_cons, List.flatten_cons, List.map_append, ih,
      Function.comp_apply, chain_atoms_map]

lemma residue_map_id (r : Residue) : Residue.mk r.het (r.atoms.map fun a => a) = r := by
  cases r with
  | mk het atoms => simp

lemma chain_map_id (c : Chain) :
    Chain.mk c.id (c.residues.map fun r => Residue.mk r.het (r.atoms.map fun a => a)) = c := by
  cases c with
  | mk id residues => simp [residue_map_id]

lemma mapAtoms_id (s : Structure) : mapAtoms (fun a => a) s = s := by
  cases s with
  | mk models =>
    simp only [mapAtoms]
    congr 1
    induction models with
    | nil => rfl
    | cons m rest ih =>
      simp only [List.map_cons, ih, List.cons.injEq, and_true]
      induction m with
      | nil => rfl
      | cons c cs ihc => simp [ihc, chain_map_id]

lemma forall2_map_self {α β : Type} (r : α → β → Prop) (f : α → β)
    (h : ∀ a, r a (f a)) : ∀ l : List α, List.Forall₂ r l (l.map f)
  | [] => List.Forall₂.nil
  | a :: t => List.Forall₂.cons (h a) (forall2_map_self r f h t)

/-! ### Concrete sample inputs -/

/-- Sample atom whose standard combination matches at `pipi = 3`. -/
def c4atomStd : Atom := ⟨"N", 1, 3, some (1, 1, 1, 0, 0, 0)⟩

/-- Sample atom whose standard combination misses at `pipi = 3` but whose
combination (3,4,5) matches. -/
def c4atomFb : Atom := ⟨"O", 1, 3, some (0, 0, 0, 1, 1, 1)⟩

/-- One-chain structure holding the two sample atoms. -/
def c4struct : Structure := ⟨[[⟨"A", [⟨" ", [c4atomStd, c4atomFb]⟩]⟩]]⟩

/-! ### Claim theorems -/

/-- C6: on a null/missing structure, `check_beq` raises a `ValueError` while
`determine_b_group` returns the all-default result
`{protein_b: null, nucleic_b: null, calpha_only: false, phos_only: false}`. -/
theorem claim_C6 (pipi : ℚ) :
    check_beq pipi none = .error "Could check Beq values in ANISOU records. No structure." ∧
    determine_b_group none = .ok ⟨none, none, false, false⟩ :=
  ⟨rfl, rfl⟩

/-- C7: one application of the transform multiplies every atom's B-factor by
the factor, and a second application yields the square of the factor - the
transform is not idempotent. -/
theorem claim_C7 (pipi : ℚ) (s : Structure) :
    ((multiply_bfactors_8pipi pipi s).atoms.map Atom.bfactor =
      s.atoms.map fun a => pipi * a.bfactor) ∧
    ((multiply_bfactors_8pipi pipi (multiply_bfactors_8pipi pipi s)).atoms.map Atom.bfactor =
      s.atoms.map fun a => pipi ^ 2 * a.bfactor) := by
  constructor
  · rw [multiply_bfactors_8pipi, mapAtoms_atoms, List.map_map]
    rfl
  · rw [multiply_bfactors_8pipi, multiply_bfactors_8pipi, mapAtoms_atoms, mapAtoms_atoms,
      List.map_map, List.map_map]
    refine List.map_congr_left ?_
    intro a _
    show pipi * (pipi * a.bfactor) = pipi ^ 2 * a.bfactor
    ring

/-- C8: `check_combinations` hits the `assert(len(anisou) == 6)` contract
violation for every tuple whose length is not 6, for every target B-factor,
margin and `check_first` flag, instead of returning a boolean. -/
theorem claim_C8 (pipi : ℚ) (anisou : List ℚ) (b margin : ℚ) (cf : Bool)
    (h : anisou.length ≠ 6) :
    check_combinations pipi anisou b margin cf = none := by
  simp [check_combinations, h]

theorem claim_C8_witness : check_combinations 3 [1, 2, 3] 4 (15/1000) false = none :=
  claim_C8 3 [1, 2, 3] 4 (15/1000) false (by decide)

/-- C10: on a chain with zero residues, `is_protein_chain` vacuously returns
true while `is_nucleic_chain` raises an uncaught `StopIteration` because it
unconditionally advances past the first residue before scanning. -/
theorem claim_C10 (c : Chain) (h : c.residues = []) :
    is_protein_chain c = true ∧ is_nucleic_chain c = none := by
  rw [is_protein_chain, is_nucleic_chain, h]
  exact ⟨rfl, rfl⟩

theorem claim_C10_witness :
    is_protein_chain ⟨"A", []⟩ = true ∧ is_nucleic_chain ⟨"A", []⟩ = none :=
  claim_C10 ⟨"A", []⟩ rfl

/-- C9: `check_beq` and `determine_b_group` leave the structure unchanged
(their loops only read); the transform preserves the chain/residue hierarchy
and every atom's name, occupancy and tensor, rewriting only the B-factor. -/
theorem claim_C9 (pipi : ℚ) (s : Structure) :
    check_beq_post s = s ∧ determine_b_group_post s = s ∧
    ((multiply_bfactors_8pipi pipi s).models.map fun m => m.map fun c =>
        (c.id, c.residues.map fun r => (r.het, r.atoms.length))) =
      (s.models.map fun m => m.map fun c =>
        (c.id, c.residues.map fun r => (r.het, r.atoms.length))) ∧
    List.Forall₂ (fun a a2 : Atom => a2.name = a.name ∧ a2.occupancy = a.occupancy ∧
        a2.anisou = a.anisou ∧ a2.bfactor = pipi * a.bfactor)
      s.atoms ((multiply_bfactors_8pipi pipi s).atoms) := by
  refine ⟨mapAtoms_id s, mapAtoms_id s, ?_, ?_⟩
  · simp [multiply_bfactors_8pipi, mapAtoms, List.map_map, Function.comp_def]
  · rw [multiply_bfactors_8pipi, mapAtoms_atoms]
    exact forall2_map_self _ _ (fun a => ⟨rfl, rfl, rfl, rfl⟩) s.atoms

/-- C4: if some atom of the structure misses the standard-combination
tolerance but is reproduced by a tensor-component combination, then that atom
is counted as reproduced (it satisfies the numerator predicate of
`beq_identical`) and `correct_uij` is false for the whole run, no matter
where the atom sits in the iteration order. -/
theorem claim_C4 (pipi : ℚ) (s : Structure) (a : Atom) (ha : a ∈ s.atoms)
    (hf : atomFallback pipi a = true) :
    atomReproduced pipi a = true ∧
    check_beq pipi (some s) =
      .ok ⟨some (((s.atoms.filter (atomReproduced pipi)).length : ℚ) /
              (((s.atoms.filter (atomReproduced pipi)).length : ℚ) +
               ((s.atoms.filter fun x => atomHasAnisou x && !atomReproduced pipi x).length : ℚ))),
           some false⟩ := by
  have hf2 := hf
  rw [atomFallback, Bool.and_eq_true] at hf2
  have hcombo : atomComboClose pipi a = true := hf2.2
  have hrep : atomReproduced pipi a = true := by
    rw [atomReproduced, hcombo, Bool.or_true]
  have hani : atomHasAnisou a = true := by
    rw [atomComboClose] at hcombo
    rw [atomHasAnisou]
    cases h : a.anisou with
    | none => rw [h] at hcombo; cases hcombo
    | some u => simp
  refine ⟨hrep, ?_⟩
  rw [check_beq_eq_counts pipi s (models_ne_of_mem_atoms ha)]
  have h1 : s.atoms.any atomHasAnisou = true := by
    rw [List.any_eq_true]
    exact ⟨a, ha, hani⟩
  have h2 : s.atoms.any (atomFallback pipi) = true := by
    rw [List.any_eq_true]
    exact ⟨a, ha, hf⟩
  rw [h1, h2]
  simp

/-- C5 (amended): for every structure that is not empty (at least one model)
in which no atom carries a tensor, `check_beq` returns both fields null; the
atoms are skipped and contribute to neither count. -/
theorem claim_C5 (pipi : ℚ) (s : Structure) (hm : s.models ≠ [])
    (hno : ∀ a ∈ s.atoms, a.anisou = none) :
    check_beq pipi (some s) = .ok ⟨none, none⟩ := by
  have hm2 : ¬ s.models.isEmpty := by simpa [List.isEmpty_iff] using hm
  have h1 : s.atoms.any atomHasAnisou = false := by
    rw [List.any_eq_false]
    intro a ha
    simp [atomHasAnisou, hno a ha]
  rw [check_beq_eq_counts pipi s hm2, h1]
  simp

theorem claim_C5_witness :
    check_beq 3 (some ⟨[[⟨"A", [⟨" ", [⟨"N", 1, 5, none⟩]⟩]⟩]]⟩) = .ok ⟨none, none⟩ :=
  claim_C5 3 _ (by simp)
    (by
      intro a ha
      simp only [Structure.atoms, Structure.chains, Chain.atoms, List.flatten_cons,
        List.flatten_nil, List.map_cons, List.map_nil, List.append_nil, List.mem_cons,
        List.not_mem_nil, or_false] at ha
      rw [ha])

/-- C5 (counterexample): the entirely empty structure has zero atoms and no
tensors, yet `check_beq` raises the input `ValueError` instead of returning
the `{null, null}` record, because `if not structure:` is true for an empty
structure. -/
theorem claim_C5_counterexample :
    Structure.atoms ⟨[]⟩ = [] ∧
    check_beq 3 (some ⟨[]⟩) =
      .error "Could check Beq values in ANISOU records. No structure." :=
  ⟨rfl, rfl⟩

/-- A structure holding exactly one anisotropic atom, used to probe the
per-atom comparison of `check_beq`. -/
def singleAtomStructure (b : ℚ) (u : ℚ × ℚ × ℚ × ℚ × ℚ × ℚ) : Structure :=
  ⟨[[⟨"A", [⟨" ", [⟨"C", 1, b, some u⟩]⟩]⟩]]⟩

lemma singleAtomStructure_atoms (b : ℚ) (u : ℚ × ℚ × ℚ × ℚ × ℚ × ℚ) :
    (singleAtomStructure b u).atoms = [⟨"C", 1, b, some u⟩] := by
  simp [singleAtomStructure, Structure.atoms, Structure.chains, Chain.atoms]

/-- C2 (amended): the comparison is numpy's `isclose` with the default
relative tolerance kept: a lone anisotropic atom is counted as reproduced via
the standard path exactly when `|b - beq| <= 0.015 + 1e-05 * |beq|`, and the
group classifier's 0.01 comparisons likewise carry the `1e-05 * |reference|`
term; the tolerance is not purely absolute. -/
theorem claim_C2 (pipi b u1 u2 u3 u4 u5 u6 : ℚ) :
    (check_beq pipi (some (singleAtomStructure b (u1, u2, u3, u4, u5, u6))) =
        .ok ⟨some 1, some true⟩ ↔
      |b - pipi * (u1 + u2 + u3) / 3| ≤ 15/1000 + (1/100000) * |pipi * (u1 + u2 + u3) / 3|) ∧
    (∀ x y : ℚ, npIsClose x y (1/100) = true ↔ |x - y| ≤ 1/100 + (1/100000) * |y|) := by
  constructor
  · have hm : ¬ (singleAtomStructure b (u1, u2, u3, u4, u5, u6)).models.isEmpty := by
      simp [singleAtomStructure]
    rw [check_beq_eq_counts _ _ hm, singleAtomStructure_atoms]
    have hbeq : beqStandard pipi (anisouList (u1, u2, u3, u4, u5, u6)) =
        pipi * (u1 + u2 + u3) / 3 := by
      simp only [beqStandard, anisouList, List.take, List.sum_cons, List.sum_nil]
      ring
    have hstd : atomStandardClose pipi ⟨"C", 1, b, some (u1, u2, u3, u4, u5, u6)⟩ =
        npIsClose b (pipi * (u1 + u2 + u3) / 3) (15/1000) := by
      simp only [atomStandardClose, hbeq]
    by_cases h1 : atomStandardClose pipi ⟨"C", 1, b, some (u1, u2, u3, u4, u5, u6)⟩ = true
    · have hrep : atomReproduced pipi ⟨"C", 1, b, some (u1, u2, u3, u4, u5, u6)⟩ = true := by
        rw [atomReproduced, h1, Bool.true_or]
      have hfb : atomFallback pipi ⟨"C", 1, b, some (u1, u2, u3, u4, u5, u6)⟩ = false := by
        rw [atomFallback, h1]
        rfl
      rw [hstd, npIsClose, decide_eq_true_iff] at h1
      refine iff_of_true ?_ h1
      simp [hrep, hfb, atomHasAnisou]
    · have h1f : atomStandardClose pipi ⟨"C", 1, b, some (u1, u2, u3, u4, u5, u6)⟩ = false :=
        Bool.eq_false_iff.mpr h1
      rw [hstd, npIsClose] at h1
      refine iff_of_false ?_ (by simpa using h1)
      by_cases h2 : atomComboClose pipi ⟨"C", 1, b, some (u1, u2, u3, u4, u5, u6)⟩ = true
      · have hrep : atomReproduced pipi ⟨"C", 1, b, some (u1, u2, u3, u4, u5, u6)⟩ = true := by
          rw [atomReproduced, h2, Bool.or_true]
        have hfb : atomFallback pipi ⟨"C", 1, b, some (u1, u2, u3, u4, u5, u6)⟩ = true := by
          rw [atomFallback, h1f, h2]
          rfl
        simp [hrep, hfb, atomHasAnisou]
      · have h2f : atomComboClose pipi ⟨"C", 1, b, some (u1, u2, u3, u4, u5, u6)⟩ = false :=
          Bool.eq_false_iff.mpr h2
        have hrep : atomReproduced pipi ⟨"C", 1, b, some (u1, u2, u3, u4, u5, u6)⟩ = false := by
          rw [atomReproduced, h1f, h2f]
          rfl
        simp [hrep, atomHasAnisou]
  · intro x y
    rw [npIsClose, decide_eq_true_iff]

/-- C2 (counterexample): with the tensor (10000, 10000, 10000, 0, 0, 0) and a
reported B-factor 0.05 above the Beq of 30000, `check_beq` counts the atom as
reproduced via the standard combination even though the absolute difference
exceeds 0.015 - the relative term `1e-05 * 30000 = 0.3` absorbs it.  (The
abstract constant is instantiated with 3.) -/
theorem claim_C2_counterexample :
    check_beq 3 (some (singleAtomStructure (30000 + 1/20) (10000, 10000, 10000, 0, 0, 0))) =
      .ok ⟨some 1, some true⟩ ∧
    ¬ (|(30000 + 1/20 : ℚ) - 3 * (10000 + 10000 + 10000) / 3| ≤ 15/1000) := by
  constructor
  · rw [check_beq_eq_counts 3 _ (by simp [singleAtomStructure]), singleAtomStructure_atoms]
    norm_num [atomHasAnisou, atomReproduced, atomStandardClose, atomComboClose, atomFallback,
      anisouList, beqStandard, npIsClose, List.filter, abs_le, abs_of_nonneg]
  · norm_num
    rw [abs_of_nonneg (by norm_num)]
    norm_num

/-- A residue with two heavy, occupied atoms whose B-factors are 0 and 50. -/
def c3res : Residue := ⟨" ", [⟨"C", 1, 0, none⟩, ⟨"O", 1, 50, none⟩]⟩

/-- A chain of ten such residues: ten useful residues are collected, the
first B-factors of the first and last collected residues are both 0, but the
last B-factor of the last residue is 50. -/
def c3chain : Chain := ⟨"A", List.replicate 10 c3res⟩

lemma groupChainLoop_stop (rs : List Residue) (i : ℕ) (b : List (List ℚ)) (g : String)
    (h : 10 ≤ i) : groupChainLoop rs i b g = (b, g) := by
  rw [groupChainLoop.eq_def]
  rw [if_pos h]

lemma c3step (rs : List Residue) (i : ℕ) (b : List (List ℚ)) (g : String) (hi : i < 10) :
    groupChainLoop (c3res :: rs) i b g =
      groupChainLoop rs (i + 1) (b ++ [[0, 50]]) "individual" := by
  rw [groupChainLoop.eq_def]
  rw [if_neg (by omega)]
  norm_num [c3res, matchH, npIsClose, npAllClose, List.insertionSort, List.orderedInsert,
    abs_le, abs_of_nonneg]
  simp

lemma c3_collected :
    groupChainLoop c3chain.residues 0 [] "individual" =
      ([[0, 50], [0, 50], [0, 50], [0, 50], [0, 50], [0, 50], [0, 50], [0, 50], [0, 50],
        [0, 50]], "individual") := by
  show groupChainLoop (List.replicate 10 c3res) 0 [] "individual" = _
  norm_num [List.replicate, c3step, groupChainLoop_stop]

/-- C3 (amended): when ten useful residues are collected and the first
B-factors of the first and last collected residues agree within an absolute
0.01, the per-residue result is overridden; but the zero test deciding
between "overall" and "no_b-factors" is applied to the LAST B-factor of the
last collected residue (`b_res[-1][-1]`, with numpy's default atol 1e-08),
not to the shared first-atom value. -/
theorem claim_C3 (c : Chain)
    (h1 : 9 < (collected_b_res c).length)
    (h2 : |((collected_b_res c).headD []).headD 0 -
          ((collected_b_res c).getLastD []).headD 0| ≤ 1/100) :
    determine_b_group_chain c =
      if |((collected_b_res c).getLastD []).getLastD 0| ≤ 1/100000000 then "no_b-factors"
      else "overall" := by
  show bGroupOverride (groupChainLoop c.residues 0 [] "individual").1
      (groupChainLoop c.residues 0 [] "individual").2 = _
  have e : (groupChainLoop c.residues 0 [] "individual").1 = collected_b_res c := rfl
  rw [bGroupOverride, e]
  have hcond : (decide (9 < (collected_b_res c).length) &&
      npIsClose (((collected_b_res c).headD []).headD 0)
        (((collected_b_res c).getLastD []).headD 0) (1/100)) = true := by
    rw [Bool.and_eq_true]
    refine ⟨decide_eq_true h1, ?_⟩
    rw [npIsClose, decide_eq_true_iff]
    have h3 := abs_nonneg (((collected_b_res c).getLastD []).headD 0)
    have h4 : (0:ℚ) ≤ (1/100000) * |((collected_b_res c).getLastD []).headD 0| := by
      positivity
    linarith
  rw [hcond]
  rw [if_pos rfl]
  have hz : npIsClose (((collected_b_res c).getLastD []).getLastD 0) 0 (1/100000000) =
      decide (|((collected_b_res c).getLastD []).getLastD 0| ≤ 1/100000000) := by
    rw [npIsClose]
    congr 1
    rw [eq_iff_iff]
    constructor <;> intro h <;> simpa using h
  rw [hz]
  by_cases hb : |((collected_b_res c).getLastD []).getLastD 0| ≤ 1/100000000
  · rw [if_pos (decide_eq_true hb), if_pos hb]
  · rw [if_neg (by simpa using hb), if_neg hb]

theorem claim_C3_witness :
    determine_b_group_chain c3chain =
      if |((collected_b_res c3chain).getLastD []).getLastD 0| ≤ 1/100000000
      then "no_b-factors" else "overall" :=
  claim_C3 c3chain (by norm_num [collected_b_res, c3_collected])
    (by norm_num [collected_b_res, c3_collected])

/-- C3 (counterexample): in a ten-residue chain whose first collected
B-factor is 0 in both the first and the last residue (so the claim's
"shared first-atom value" is exactly 0, close to 0), the code still returns
"overall", because the zero test actually inspects the last B-factor of the
last residue, which is 50. -/
theorem claim_C3_counterexample :
    (collected_b_res c3chain).length = 10 ∧
    ((collected_b_res c3chain).headD []).headD 0 = 0 ∧
    ((collected_b_res c3chain).getLastD []).headD 0 = 0 ∧
    |(0 : ℚ) - 0| ≤ 1/100000000 ∧
    determine_b_group_chain c3chain = "overall" ∧
    ("overall" : String) ≠ "no_b-factors" := by
  refine ⟨?_, ?_, ?_, by norm_num, ?_, by decide⟩
  · rw [collected_b_res, c3_collected]
    rfl
  · rw [collected_b_res, c3_collected]
    rfl
  · rw [collected_b_res, c3_collected]
    rfl
  · show bGroupOverride (groupChainLoop c3chain.residues 0 [] "individual").1
      (groupChainLoop c3chain.residues 0 [] "individual").2 = "overall"
    rw [c3_collected]
    norm_num [bGroupOverride, npIsClose, abs_le, abs_of_nonneg]

/-- C1: with `check_first` left at its default, `check_combinations` does NOT
skip the standard combination: for the tensor (3, 3, 3, 0, 0, 0) and the
target equal to the standard Beq (here the abstract float constant
`8*np.pi**2` is instantiated with 78.9568), the function returns True even
though the only combination within tolerance is the standard (0, 1, 2)
itself - the `if c == (0, 1, 2) and not check_first: pass` guard is a no-op
(`pass` instead of `continue`). -/
theorem claim_C1_eval :
    check_combinations (789568/10000) [3, 3, 3, 0, 0, 0] (2368704/10000) (15/1000)
      = some true ∧
    (combinations_3_of_6.filter fun c =>
        npIsClose (2368704/10000) (comboBeq (789568/10000) [3, 3, 3, 0, 0, 0] c) (15/1000))
      = [(0, 1, 2)] := by
  constructor
  · rw [check_combinations]
    norm_num [anyComboClose, combinations_3_of_6, comboBeq, npIsClose, List.getD,
      abs_le, abs_of_nonneg]
  · norm_num [combinations_3_of_6, comboBeq, npIsClose, List.getD, List.filter,
      abs_le, abs_of_nonneg]

lemma c4struct_atoms : c4struct.atoms = [c4atomStd, c4atomFb] := by
  simp [c4struct, Structure.atoms, Structure.chains, Chain.atoms]

lemma c4atomFb_fallback : atomFallback 3 c4atomFb = true := by
  norm_num [atomFallback, atomStandardClose, atomComboClose, c4atomFb, anisouList,
    beqStandard, anyComboClose, combinations_3_of_6, comboBeq, npIsClose, List.getD,
    abs_le, abs_of_nonneg]

theorem claim_C4_witness :
    atomReproduced 3 c4atomFb = true ∧
    check_beq 3 (some c4struct) =
      .ok ⟨some (((c4struct.atoms.filter (atomReproduced 3)).length : ℚ) /
              (((c4struct.atoms.filter (atomReproduced 3)).length : ℚ) +
               ((c4struct.atoms.filter fun x => atomHasAnisou x && !atomReproduced 3 x).length : ℚ))),
           some false⟩ :=
  claim_C4 3 c4struct c4atomFb
    (by rw [c4struct_atoms]; exact List.mem_cons_of_mem _ (List.mem_cons_self _ _))
    c4atomFb_fallback
